import Mathlib

/-!
Verification of the thermal_comfort sensor component.

The numeric core of `custom_components/thermal_comfort/sensor.py` is embedded
over the real numbers: Python floats become `ℝ`, `math.exp` / `math.log` /
`math.sqrt` / `pow` become `Real.exp` / `Real.log` / `Real.sqrt` / `Real.rpow`,
and Python's `round(x, 2)` becomes `round2` below.  Computations that raise a
`ValueError` in Python (logarithm of a non-positive number, division by zero)
are modelled with `Option`, `none` standing for the raised error.
-/

open Real

noncomputable section

namespace ThermalComfort

/-- Python's `round(x, 2)`: round to two decimal places.  (Ties are rounded up
here; Python rounds ties to even, which differs only on exact midpoints.) -/
def round2 (x : ℝ) : ℝ := (round (x * 100) : ℤ) / 100

/-- Celsius → Fahrenheit conversion supplied by the host
(`util.temperature.celsius_to_fahrenheit`): `F = C * 1.8 + 32`. -/
def celsius_to_fahrenheit (celsius : ℝ) : ℝ := celsius * 1.8 + 32.0

/-- Fahrenheit → Celsius conversion supplied by the host
(`util.temperature.fahrenheit_to_celsius`): `C = (F - 32) / 1.8`. -/
def fahrenheit_to_celsius (fahrenheit : ℝ) : ℝ := (fahrenheit - 32.0) / 1.8

/-- `a0 = 373.15 / (273.15 + temperature)` from `compute_dew_point`. -/
def dp_a0 (temperature : ℝ) : ℝ := 373.15 / (273.15 + temperature)

/-- The accumulated value `sum` in `compute_dew_point` (log-pressure series). -/
def dp_sum (temperature : ℝ) : ℝ :=
  -7.90298 * (dp_a0 temperature - 1)
    + 5.02808 * Real.logb 10 (dp_a0 temperature)
    + -1.3816e-7 * ((10 : ℝ) ^ (11.344 * (1 - 1 / dp_a0 temperature)) - 1)
    + 8.1328e-3 * ((10 : ℝ) ^ (-3.49149 * (dp_a0 temperature - 1)) - 1)
    + Real.logb 10 1013.246

/-- The vapour pressure `vp = pow(10, sum - 3) * humidity` in `compute_dew_point`. -/
def dp_vp (temperature humidity : ℝ) : ℝ :=
  (10 : ℝ) ^ (dp_sum temperature - 3) * humidity

/-- The local variable `td` after `td = math.log(vp / 0.61078)` in
`compute_dew_point`. -/
def dp_td0 (temperature humidity : ℝ) : ℝ :=
  Real.log (dp_vp temperature humidity / 0.61078)

/-- `SensorThermalComfort.compute_dew_point`.  `none` models the `ValueError`
Python raises for `math.log` of a non-positive argument (temperature at or
below absolute zero, or non-positive vapour pressure) and the
`ZeroDivisionError` on the final division. -/
def compute_dew_point (temperature humidity : ℝ) : Option ℝ :=
  if 273.15 + temperature ≤ 0 then none
  else if dp_vp temperature humidity ≤ 0 then none
  else if 17.558 - dp_td0 temperature humidity = 0 then none
  else some (round2 (241.88 * dp_td0 temperature humidity
    / (17.558 - dp_td0 temperature humidity)))

/-- The argument of `math.sqrt` in the low-humidity heat-index correction:
`(17 - abs(fahrenheit - 95)) * 0.05882`. -/
def heat_index_sqrt_arg (fahrenheit : ℝ) : ℝ := (17 - |fahrenheit - 95|) * 0.05882

/-- The Rothfusz regression accumulated in `compute_heat_index` when the
preliminary value exceeds 79 °F. -/
def rothfusz_regression (fahrenheit humidity : ℝ) : ℝ :=
  -42.379 + 2.04901523 * fahrenheit
    + 10.14333127 * humidity
    + -0.22475541 * fahrenheit * humidity
    + -0.00683783 * fahrenheit ^ 2
    + -0.05481717 * humidity ^ 2
    + 0.00122874 * fahrenheit ^ 2 * humidity
    + 0.00085282 * fahrenheit * humidity ^ 2
    + -0.00000199 * fahrenheit ^ 2 * humidity ^ 2

/-- The preliminary Steadman approximation
`0.5 * (F + 61 + (F - 68) * 1.2 + RH * 0.094)` in `compute_heat_index`. -/
def steadman_approx (fahrenheit humidity : ℝ) : ℝ :=
  0.5 * (fahrenheit + 61.0 + (fahrenheit - 68.0) * 1.2 + humidity * 0.094)

/-- The value of the variable `heat_index` after the `if heat_index > 79`
replacement in `compute_heat_index`. -/
def heat_index_base (fahrenheit humidity : ℝ) : ℝ :=
  if steadman_approx fahrenheit humidity > 79 then rothfusz_regression fahrenheit humidity
  else steadman_approx fahrenheit humidity

/-- `SensorThermalComfort.compute_heat_index`. -/
def compute_heat_index (temperature humidity : ℝ) : ℝ :=
  round2 (fahrenheit_to_celsius
    (if humidity < 13 ∧ 80 ≤ celsius_to_fahrenheit temperature ∧
        celsius_to_fahrenheit temperature ≤ 112 then
      heat_index_base (celsius_to_fahrenheit temperature) humidity
        - (13 - humidity) * 0.25
          * Real.sqrt (heat_index_sqrt_arg (celsius_to_fahrenheit temperature))
    else if humidity > 85 ∧ 80 ≤ celsius_to_fahrenheit temperature ∧
        celsius_to_fahrenheit temperature ≤ 87 then
      heat_index_base (celsius_to_fahrenheit temperature) humidity
        + (humidity - 85) * 0.1 * ((87 - celsius_to_fahrenheit temperature) * 0.2)
    else heat_index_base (celsius_to_fahrenheit temperature) humidity))

/-- The dew-point → label band mapping inside `compute_perception`. -/
def perceptionLabel (dew_point : ℝ) : String :=
  if dew_point < 10 then "A bit dry for some"
  else if dew_point < 13 then "Very comfortable"
  else if dew_point < 16 then "Comfortable"
  else if dew_point < 18 then "OK for most"
  else if dew_point < 21 then "Somewhat uncomfortable"
  else if dew_point < 24 then "Very humid, quite uncomfortable"
  else if dew_point < 26 then "Extremely uncomfortable"
  else "Severely high"

/-- `SensorThermalComfort.compute_perception`: band mapping applied to the dew
point; a dew-point error propagates. -/
def compute_perception (temperature humidity : ℝ) : Option String :=
  (compute_dew_point temperature humidity).map perceptionLabel

/-- `SensorThermalComfort.compute_absolute_humidity`. -/
def compute_absolute_humidity (temperature humidity : ℝ) : ℝ :=
  round2 (6.112 * Real.exp (17.67 * temperature / (243.5 + temperature)) * humidity * 2.1674
    / (temperature + 273.15))

/-- `SensorThermalComfort.compute_simmer_index`. -/
def compute_simmer_index (temperature humidity : ℝ) : ℝ :=
  round2 (fahrenheit_to_celsius
    (if celsius_to_fahrenheit temperature < 70 then celsius_to_fahrenheit temperature
     else 1.98 * (celsius_to_fahrenheit temperature
        - (0.55 - 0.0055 * humidity) * (celsius_to_fahrenheit temperature - 58.0)) - 56.83))

/-- The simmer-index → label band mapping inside `compute_simmer_zone`. -/
def simmerZoneLabel (simmer_index : ℝ) : String :=
  if simmer_index < 21.1 then ""
  else if simmer_index < 25.0 then "Slightly cool"
  else if simmer_index < 28.3 then "Comfortable"
  else if simmer_index < 32.8 then "Slightly warm"
  else if simmer_index < 37.8 then "Increasing discomfort"
  else if simmer_index < 44.4 then "Extremely warm"
  else if simmer_index < 51.7 then "Danger of heatstroke"
  else if simmer_index < 65.6 then "Extreme danger of heatstroke"
  else "Circulatory collapse imminent"

/-- `SensorThermalComfort.compute_simmer_zone`. -/
def compute_simmer_zone (temperature humidity : ℝ) : String :=
  simmerZoneLabel (compute_simmer_index temperature humidity)

/-- A state delivered by one of the two feeds: Home Assistant's
`STATE_UNKNOWN`, `STATE_UNAVAILABLE`, or a numeric reading (already converted
to Celsius for the temperature feed). -/
inductive FeedState
  | unknown
  | unavailable
  | reading (value : ℝ)

/-- The mutable instance fields `_temperature` and `_humidity`:
the cached last-known readings, `none` before the first valid reading. -/
structure SensorState where
  temperature : Option ℝ
  humidity : Option ℝ

/-- `SensorThermalComfort.temperature_state_listener`: update the cached
temperature when the new state is a reading (skip `None`/unknown/unavailable),
then unconditionally call `async_schedule_update_ha_state(True)` — the
returned `Bool` records that a forced state update (recomputation) was
scheduled. -/
def temperature_state_listener (s : SensorState) (new_state : Option FeedState) :
    SensorState × Bool :=
  match new_state with
  | some (FeedState.reading v) => ({ s with temperature := some v }, true)
  | _ => (s, true)

/-- `SensorThermalComfort.humidity_state_listener`: same shape as the
temperature listener, updating the cached humidity. -/
def humidity_state_listener (s : SensorState) (new_state : Option FeedState) :
    SensorState × Bool :=
  match new_state with
  | some (FeedState.reading v) => ({ s with humidity := some v }, true)
  | _ => (s, true)

/-- A computed sensor state: numeric metric or categorical label. -/
inductive MetricValue
  | num (value : ℝ)
  | label (text : String)

/-- `SensorThermalComfort.async_update`: the published state.  Python guards
the computation with `if self._temperature and self._humidity`, which is
*truthiness*: `None` and `0.0` both fail the test, so any cached value of
exactly `0` suppresses the computation just like a missing one.  An
unrecognised `sensor_type` leaves `value = None`. -/
def async_update (s : SensorState) (sensor_type : String) : Option MetricValue :=
  match s.temperature, s.humidity with
  | some t, some h =>
    if t = 0 ∨ h = 0 then none
    else if sensor_type = "dewpoint" then (compute_dew_point t h).map MetricValue.num
    else if sensor_type = "heatindex" then some (MetricValue.num (compute_heat_index t h))
    else if sensor_type = "perception" then (compute_perception t h).map MetricValue.label
    else if sensor_type = "absolutehumidity" then
      some (MetricValue.num (compute_absolute_humidity t h))
    else if sensor_type = "simmerindex" then some (MetricValue.num (compute_simmer_index t h))
    else if sensor_type = "simmerzone" then some (MetricValue.label (compute_simmer_zone t h))
    else none
  | _, _ => none

/-- First stage of the heat index as the specification words it: the Steadman
preliminary value (replaced by the Rothfusz regression iff it is strictly
greater than 79, i.e. `heat_index_base`), with the subtractive correction
applied exactly when `RH < 13 ∧ 80 ≤ F ≤ 112` (inclusive bounds). -/
def heat_index_spec_after_sub (F rh : ℝ) : ℝ :=
  if rh < 13 ∧ 80 ≤ F ∧ F ≤ 112 then
    heat_index_base F rh - (13 - rh) * 0.25 * Real.sqrt (heat_index_sqrt_arg F)
  else heat_index_base F rh

/-- The heat index exactly as the specification words it: on top of
`heat_index_spec_after_sub`, the additive correction is applied exactly when
`RH > 85 ∧ 80 ≤ F ≤ 87` (inclusive bounds) — the two corrections are stated as
independent conditions, not as an if/elif chain — and the result is converted
back to Celsius and rounded to two decimals. -/
def heat_index_spec (temp_c rh : ℝ) : ℝ :=
  round2 (fahrenheit_to_celsius
    (if rh > 85 ∧ 80 ≤ celsius_to_fahrenheit temp_c ∧ celsius_to_fahrenheit temp_c ≤ 87 then
      heat_index_spec_after_sub (celsius_to_fahrenheit temp_c) rh
        + (rh - 85) * 0.1 * ((87 - celsius_to_fahrenheit temp_c) * 0.2)
    else heat_index_spec_after_sub (celsius_to_fahrenheit temp_c) rh))

/-! ### Helper lemmas about `round2` -/

/-- Evaluate `round2` when the scaled value is pinned between integer bounds. -/
lemma round2_eq_of_bounds (x : ℝ) (n : ℤ) (h1 : (n : ℝ) ≤ x * 100 + 1 / 2)
    (h2 : x * 100 + 1 / 2 < (n : ℝ) + 1) : round2 x = (n : ℝ) / 100 := by
  unfold round2
  have hr : round (x * 100) = n := by
    rw [round_eq]
    exact Int.floor_eq_iff.mpr ⟨h1, h2⟩
  rw [hr]

lemma round2_mono {x y : ℝ} (h : x ≤ y) : round2 x ≤ round2 y := by
  unfold round2
  have h1 : (round (x * 100) : ℤ) ≤ round (y * 100) := by
    rw [round_eq, round_eq]
    exact Int.floor_le_floor (by linarith)
  have h2 : ((round (x * 100) : ℤ) : ℝ) ≤ ((round (y * 100) : ℤ) : ℝ) := by exact_mod_cast h1
  linarith

lemma round2_le_of_le {x b : ℝ} (n : ℤ) (hx : x ≤ b) (hb : b * 100 + 1 / 2 < (n : ℝ) + 1) :
    round2 x ≤ ((n : ℝ) + 1) / 100 := by
  unfold round2
  have h1 : (round (x * 100) : ℤ) ≤ n := by
    rw [round_eq, Int.floor_le_iff]
    exact lt_of_le_of_lt (by linarith) hb
  have h2 : ((round (x * 100) : ℤ) : ℝ) ≤ (n : ℝ) := by exact_mod_cast h1
  linarith

lemma le_round2_of_le {x b : ℝ} (n : ℤ) (hx : b ≤ x) (hb : (n : ℝ) ≤ b * 100 + 1 / 2) :
    (n : ℝ) / 100 ≤ round2 x := by
  unfold round2
  have h1 : n ≤ (round (x * 100) : ℤ) := by
    rw [round_eq, Int.le_floor]
    exact le_trans hb (by linarith)
  have h2 : (n : ℝ) ≤ ((round (x * 100) : ℤ) : ℝ) := by exact_mod_cast h1
  linarith

/-! ### C3: simmer index identity branch below 70 °F -/

/-- C3: whenever the Fahrenheit equivalent of `temp_c` is strictly below 70,
`compute_simmer_index` returns `temp_c` itself after the round trip through
Fahrenheit and the rounding to two decimals; in particular
`compute_simmer_index 15 50 = 15`. -/
theorem simmer_index_identity_below_70F :
    (∀ t h : ℝ, celsius_to_fahrenheit t < 70 → compute_simmer_index t h = round2 t) ∧
      compute_simmer_index 15 50 = 15 := by
  have key : ∀ t h : ℝ, celsius_to_fahrenheit t < 70 → compute_simmer_index t h = round2 t := by
    intro t h hf
    unfold compute_simmer_index
    rw [if_pos hf]
    congr 1
    unfold fahrenheit_to_celsius celsius_to_fahrenheit
    field_simp
  refine ⟨key, ?_⟩
  have h15 : celsius_to_fahrenheit 15 < 70 := by unfold celsius_to_fahrenheit; norm_num
  rw [key 15 50 h15, round2_eq_of_bounds 15 1500 (by norm_num) (by norm_num)]
  norm_num

/-- Witness for C3 at the concrete input from the specification. -/
theorem simmer_index_identity_below_70F_witness :
    celsius_to_fahrenheit 15 < 70 ∧ compute_simmer_index 15 50 = round2 15 :=
  ⟨(by unfold celsius_to_fahrenheit; norm_num),
   simmer_index_identity_below_70F.1 15 50 (by unfold celsius_to_fahrenheit; norm_num)⟩

/-! ### C10: the square-root argument in the heat-index correction is safe -/

/-- C10: inside the subtractive correction branch (`humidity < 13` and
`80 ≤ F ≤ 112`), the guard forces `|F - 95| ≤ 17`, so the argument of
`math.sqrt` is nonnegative and the correction cannot raise a domain error. -/
theorem heat_index_sqrt_arg_nonneg :
    ∀ t h : ℝ, h < 13 → 80 ≤ celsius_to_fahrenheit t → celsius_to_fahrenheit t ≤ 112 →
      |celsius_to_fahrenheit t - 95| ≤ 17 ∧ 0 ≤ heat_index_sqrt_arg (celsius_to_fahrenheit t) := by
  intro t h _ h80 h112
  have habs : |celsius_to_fahrenheit t - 95| ≤ 17 := by
    rw [abs_le]
    constructor <;> linarith
  refine ⟨habs, ?_⟩
  unfold heat_index_sqrt_arg
  have h17 : 0 ≤ 17 - |celsius_to_fahrenheit t - 95| := by linarith
  nlinarith

/-- Witness for C10 at 30 °C (86 °F) and 10 % humidity. -/
theorem heat_index_sqrt_arg_nonneg_witness :
    (10 : ℝ) < 13 ∧ 80 ≤ celsius_to_fahrenheit 30 ∧ celsius_to_fahrenheit 30 ≤ 112 ∧
      0 ≤ heat_index_sqrt_arg (celsius_to_fahrenheit 30) :=
  ⟨(by norm_num), (by unfold celsius_to_fahrenheit; norm_num),
   (by unfold celsius_to_fahrenheit; norm_num),
   (heat_index_sqrt_arg_nonneg 30 10 (by norm_num)
     (by unfold celsius_to_fahrenheit; norm_num)
     (by unfold celsius_to_fahrenheit; norm_num)).2⟩

/-! ### C9: truthiness treats 0 as missing in `async_update` -/

/-- C9: whenever either cached input is unset or exactly `0`, `async_update`
computes no metric and publishes `none`, because the guard tests Python
truthiness rather than presence. -/
theorem async_update_zero_treated_as_missing :
    ∀ (s : SensorState) (sensor_type : String),
      (s.temperature = none ∨ s.temperature = some 0 ∨
        s.humidity = none ∨ s.humidity = some 0) →
      async_update s sensor_type = none := by
  intro s st h
  obtain ⟨tOpt, hOpt⟩ := s
  cases tOpt with
  | none => rfl
  | some t =>
    cases hOpt with
    | none => rfl
    | some hu =>
      have hz : t = 0 ∨ hu = 0 := by
        simp only [SensorState.temperature, SensorState.humidity] at h
        rcases h with h | h | h | h
        · exact absurd h (by simp)
        · exact Or.inl (by injection h)
        · exact absurd h (by simp)
        · exact Or.inr (by injection h)
      unfold async_update
      exact if_pos hz

/-- Witness for C9: a genuine 0 °C reading with 50 % humidity publishes no value. -/
theorem async_update_zero_treated_as_missing_witness :
    (SensorState.mk (some 0) (some 50)).temperature = some 0 ∧
      async_update (SensorState.mk (some 0) (some 50)) "dewpoint" = none :=
  ⟨rfl, async_update_zero_treated_as_missing _ "dewpoint" (Or.inr (Or.inl rfl))⟩

/-! ### C8: unknown/unavailable updates keep the cache but still recompute -/

/-- C8 counterexample: an `unknown` (resp. `unavailable`) update still calls
`async_schedule_update_ha_state(True)` — the scheduled-update flag is `true`,
so a recomputation *is* triggered, contrary to the claim that no
recomputation happens. -/
theorem listener_schedules_update_on_unknown :
    (temperature_state_listener (SensorState.mk (some 21) (some 45))
        (some FeedState.unknown)).2 = true ∧
      (humidity_state_listener (SensorState.mk (some 21) (some 45))
        (some FeedState.unavailable)).2 = true :=
  ⟨rfl, rfl⟩

/-- C8 amended: on an unknown/unavailable (or absent) new state both listeners
leave the cached readings unchanged, but they still schedule a forced state
update, so the metric is recomputed from the unchanged cache. -/
theorem listener_unknown_keeps_cache_but_schedules :
    ∀ (s : SensorState) (new_state : Option FeedState),
      (new_state = none ∨ new_state = some FeedState.unknown ∨
        new_state = some FeedState.unavailable) →
      temperature_state_listener s new_state = (s, true) ∧
        humidity_state_listener s new_state = (s, true) := by
  intro s ns h
  rcases h with rfl | rfl | rfl <;> exact ⟨rfl, rfl⟩

/-- Witness for the amended C8 at a concrete cached state. -/
theorem listener_unknown_keeps_cache_but_schedules_witness :
    ((some FeedState.unknown = (none : Option FeedState) ∨
        some FeedState.unknown = some FeedState.unknown ∨
        some FeedState.unknown = some FeedState.unavailable)) ∧
      temperature_state_listener (SensorState.mk (some 20) (some 50))
          (some FeedState.unknown) = (SensorState.mk (some 20) (some 50), true) ∧
        humidity_state_listener (SensorState.mk (some 20) (some 50))
          (some FeedState.unknown) = (SensorState.mk (some 20) (some 50), true) :=
  ⟨Or.inr (Or.inl rfl),
   listener_unknown_keeps_cache_but_schedules _ _ (Or.inr (Or.inl rfl))⟩

/-! ### C1: the heat index computation matches its specification wording -/

/-- C1: `compute_heat_index` (Steadman preliminary value, replaced by the
Rothfusz regression iff strictly greater than 79, then an if/elif correction
pair) computes exactly the value described by the specification, where the
subtractive correction applies exactly when `RH < 13 ∧ 80 ≤ F ≤ 112` and the
additive correction exactly when `RH > 85 ∧ 80 ≤ F ≤ 87` (inclusive bounds),
followed by conversion back to Celsius and rounding to two decimals. -/
theorem heat_index_matches_spec :
    ∀ t h : ℝ, compute_heat_index t h = heat_index_spec t h := by
  intro t h
  unfold compute_heat_index heat_index_spec heat_index_spec_after_sub
  split_ifs with c1 c2 <;> try rfl
  exact absurd (lt_trans c2.1 c1.1) (by norm_num)

/-! ### C5: the band mappings partition the real line -/

set_option maxHeartbeats 1600000 in
/-- C5: the `perception` and `simmer_zone` band mappings are total with
half-open bands evaluated in ascending order, first match winning: every real
dew-point (resp. simmer-index) value gets exactly one of the fixed label
strings, each label characterising exactly its half-open band, with no gaps or
overlaps. -/
theorem perception_simmer_zone_band_partition :
    ∀ x : ℝ,
      ((perceptionLabel x = "A bit dry for some" ↔ x < 10) ∧
        (perceptionLabel x = "Very comfortable" ↔ 10 ≤ x ∧ x < 13) ∧
        (perceptionLabel x = "Comfortable" ↔ 13 ≤ x ∧ x < 16) ∧
        (perceptionLabel x = "OK for most" ↔ 16 ≤ x ∧ x < 18) ∧
        (perceptionLabel x = "Somewhat uncomfortable" ↔ 18 ≤ x ∧ x < 21) ∧
        (perceptionLabel x = "Very humid, quite uncomfortable" ↔ 21 ≤ x ∧ x < 24) ∧
        (perceptionLabel x = "Extremely uncomfortable" ↔ 24 ≤ x ∧ x < 26) ∧
        (perceptionLabel x = "Severely high" ↔ 26 ≤ x)) ∧
      ((simmerZoneLabel x = "" ↔ x < 21.1) ∧
        (simmerZoneLabel x = "Slightly cool" ↔ 21.1 ≤ x ∧ x < 25) ∧
        (simmerZoneLabel x = "Comfortable" ↔ 25 ≤ x ∧ x < 28.3) ∧
        (simmerZoneLabel x = "Slightly warm" ↔ 28.3 ≤ x ∧ x < 32.8) ∧
        (simmerZoneLabel x = "Increasing discomfort" ↔ 32.8 ≤ x ∧ x < 37.8) ∧
        (simmerZoneLabel x = "Extremely warm" ↔ 37.8 ≤ x ∧ x < 44.4) ∧
        (simmerZoneLabel x = "Danger of heatstroke" ↔ 44.4 ≤ x ∧ x < 51.7) ∧
        (simmerZoneLabel x = "Extreme danger of heatstroke" ↔ 51.7 ≤ x ∧ x < 65.6) ∧
        (simmerZoneLabel x = "Circulatory collapse imminent" ↔ 65.6 ≤ x)) := by
  intro x
  refine ⟨?_, ?_⟩
  · unfold perceptionLabel
    split_ifs with h1 h2 h3 h4 h5 h6 h7 <;>
      refine ⟨?_, ?_, ?_, ?_, ?_, ?_, ?_, ?_⟩ <;>
        simp <;> first | linarith | (constructor <;> linarith) | (intros; linarith)
  · unfold simmerZoneLabel
    split_ifs with h1 h2 h3 h4 h5 h6 h7 h8 <;>
      refine ⟨?_, ?_, ?_, ?_, ?_, ?_, ?_, ?_, ?_⟩ <;>
        simp <;> first | linarith | (constructor <;> linarith) | (intros; linarith)

/-! ### C2: dew point fails distinctly for non-positive humidity -/

/-- C2: for any non-positive humidity (in particular exactly 0) the vapour
pressure is non-positive, so `compute_dew_point` stops with the error result
`none` — which is distinct from every numeric result `some v` — instead of
producing a number. -/
theorem dew_point_none_on_nonpositive_humidity :
    ∀ t h : ℝ, h ≤ 0 → compute_dew_point t h = none := by
  intro t h hh
  unfold compute_dew_point
  by_cases ht : 273.15 + t ≤ 0
  · rw [if_pos ht]
  · rw [if_neg ht, if_pos ?_]
    unfold dp_vp
    have hp : 0 < (10 : ℝ) ^ (dp_sum t - 3) := Real.rpow_pos_of_pos (by norm_num) _
    nlinarith

/-- Witness for C2: zero humidity at 25 °C yields the error result. -/
theorem dew_point_none_on_nonpositive_humidity_witness :
    (0 : ℝ) ≤ 0 ∧ compute_dew_point 25 0 = none :=
  ⟨le_refl 0, dew_point_none_on_nonpositive_humidity 25 0 (le_refl 0)⟩

/-! ### C4: absolute humidity formula and concrete value -/

/-- C4: `compute_absolute_humidity` is exactly
`round2 (6.112 * e^(17.67*T/(243.5+T)) * RH * 2.1674 / (T+273.15))`, computed
directly on the Celsius input with no Fahrenheit conversion, and at
`T = 20 °C`, `RH = 50 %` it returns `8.64`. -/
theorem absolute_humidity_formula_and_value :
    (∀ T RH : ℝ, compute_absolute_humidity T RH =
        round2 (6.112 * Real.exp (17.67 * T / (243.5 + T)) * RH * 2.1674 / (T + 273.15))) ∧
      compute_absolute_humidity 20 50 = 8.64 := by
  refine ⟨fun T RH => rfl, ?_⟩
  unfold compute_absolute_humidity
  have hexp : Real.exp (17.67 * 20 / (243.5 + 20)) = Real.exp 1 * Real.exp (29 / 85) := by
    rw [← Real.exp_add]
    norm_num
  rw [hexp]
  have h1 : (1.406601 : ℝ) ≤ Real.exp (29 / 85) := by
    refine le_trans ?_ (Real.sum_le_exp_of_nonneg (by norm_num) 8)
    norm_num [Finset.sum_range_succ, Nat.factorial]
  have h2 : Real.exp (29 / 85) ≤ 1.406602 := by
    refine le_trans (Real.exp_bound' (by norm_num) (by norm_num) (n := 8) (by norm_num)) ?_
    norm_num [Finset.sum_range_succ, Nat.factorial]
  have h3 := Real.exp_one_gt_d9
  have h4 := Real.exp_one_lt_d9
  have hE1 : (3.82353 : ℝ) ≤ Real.exp 1 * Real.exp (29 / 85) := by nlinarith
  have hE2 : Real.exp 1 * Real.exp (29 / 85) ≤ 3.82355 := by nlinarith
  have hkey : 6.112 * (Real.exp 1 * Real.exp (29 / 85)) * 50 * 2.1674 / (20 + 273.15) * 100
      = Real.exp 1 * Real.exp (29 / 85) * (6.112 * 50 * 2.1674 * 100 / 293.15) := by
    ring
  rw [round2_eq_of_bounds _ 864 ?_ ?_]
  · norm_num
  · rw [hkey]
    nlinarith
  · rw [hkey]
    nlinarith

/-! ### C7: absolute humidity is monotone in each argument -/

/-- Core step for C7: over the typical atmospheric range the unrounded
absolute-humidity kernel grows with temperature. -/
lemma abs_humidity_exp_step {t1 t2 : ℝ} (ha : -100 ≤ t1) (hab : t1 ≤ t2) (hb : t2 ≤ 100) :
    Real.exp (17.67 * t1 / (243.5 + t1)) * (t2 + 273.15)
      ≤ Real.exp (17.67 * t2 / (243.5 + t2)) * (t1 + 273.15) := by
  have hD1 : (0 : ℝ) < 243.5 + t1 := by linarith
  have hD2 : (0 : ℝ) < 243.5 + t2 := by linarith
  have hT1 : (0 : ℝ) < t1 + 273.15 := by linarith
  have hdiff : (17.67 * t2 / (243.5 + t2) - 17.67 * t1 / (243.5 + t1))
      * ((243.5 + t1) * (243.5 + t2)) = 17.67 * 243.5 * (t2 - t1) := by
    field_simp
    ring
  have h5 : 0 ≤ (t2 - t1) * (17.67 * 243.5 * (t1 + 273.15) - (243.5 + t1) * (243.5 + t2)) := by
    have hfac : 0 ≤ 17.67 * 243.5 * (t1 + 273.15) - (243.5 + t1) * (243.5 + t2) := by
      nlinarith
    exact mul_nonneg (by linarith) hfac
  have h7 : ((17.67 * t2 / (243.5 + t2) - 17.67 * t1 / (243.5 + t1)) * (t1 + 273.15)
        - (t2 - t1)) * ((243.5 + t1) * (243.5 + t2))
      = (t2 - t1) * (17.67 * 243.5 * (t1 + 273.15) - (243.5 + t1) * (243.5 + t2)) := by
    linear_combination (t1 + 273.15) * hdiff
  have h8 : 0 ≤ (17.67 * t2 / (243.5 + t2) - 17.67 * t1 / (243.5 + t1)) * (t1 + 273.15)
      - (t2 - t1) := by
    have hDD : (0 : ℝ) < (243.5 + t1) * (243.5 + t2) := mul_pos hD1 hD2
    nlinarith [h7.symm ▸ h5]
  have hkey : t2 + 273.15
      ≤ (1 + (17.67 * t2 / (243.5 + t2) - 17.67 * t1 / (243.5 + t1))) * (t1 + 273.15) := by
    nlinarith [h8]
  have hexp1 : Real.exp (17.67 * t2 / (243.5 + t2))
      = Real.exp (17.67 * t1 / (243.5 + t1))
        * Real.exp (17.67 * t2 / (243.5 + t2) - 17.67 * t1 / (243.5 + t1)) := by
    rw [← Real.exp_add]
    ring_nf
  have h9 : 1 + (17.67 * t2 / (243.5 + t2) - 17.67 * t1 / (243.5 + t1))
      ≤ Real.exp (17.67 * t2 / (243.5 + t2) - 17.67 * t1 / (243.5 + t1)) := by
    linarith [Real.add_one_le_exp (17.67 * t2 / (243.5 + t2) - 17.67 * t1 / (243.5 + t1))]
  rw [hexp1]
  calc Real.exp (17.67 * t1 / (243.5 + t1)) * (t2 + 273.15)
      ≤ Real.exp (17.67 * t1 / (243.5 + t1))
          * ((1 + (17.67 * t2 / (243.5 + t2) - 17.67 * t1 / (243.5 + t1))) * (t1 + 273.15)) :=
        mul_le_mul_of_nonneg_left hkey (Real.exp_pos _).le
    _ ≤ Real.exp (17.67 * t1 / (243.5 + t1))
          * (Real.exp (17.67 * t2 / (243.5 + t2) - 17.67 * t1 / (243.5 + t1))
            * (t1 + 273.15)) :=
        mul_le_mul_of_nonneg_left (mul_le_mul_of_nonneg_right h9 hT1.le) (Real.exp_pos _).le
    _ = Real.exp (17.67 * t1 / (243.5 + t1))
          * Real.exp (17.67 * t2 / (243.5 + t2) - 17.67 * t1 / (243.5 + t1))
          * (t1 + 273.15) := by ring

/-- C7: over the formula's typical atmospheric domain
(`-100 ≤ t ≤ 100 °C`, `0 ≤ rh`), `compute_absolute_humidity` is monotone
increasing in humidity for fixed temperature and monotone increasing in
temperature for fixed humidity (up to the final rounding, which is itself
monotone). -/
theorem absolute_humidity_monotone :
    (∀ t h1 h2 : ℝ, -100 ≤ t → t ≤ 100 → 0 ≤ h1 → h1 ≤ h2 →
        compute_absolute_humidity t h1 ≤ compute_absolute_humidity t h2) ∧
      (∀ t1 t2 h : ℝ, -100 ≤ t1 → t1 ≤ t2 → t2 ≤ 100 → 0 ≤ h →
        compute_absolute_humidity t1 h ≤ compute_absolute_humidity t2 h) := by
  constructor
  · intro t h1 h2 hta htb hh1 hh12
    unfold compute_absolute_humidity
    apply round2_mono
    have hT : (0 : ℝ) < t + 273.15 := by linarith
    have e1 : ∀ h : ℝ, 6.112 * Real.exp (17.67 * t / (243.5 + t)) * h * 2.1674 / (t + 273.15)
        = (6.112 * 2.1674 * Real.exp (17.67 * t / (243.5 + t)) / (t + 273.15)) * h := by
      intro h
      ring
    rw [e1 h1, e1 h2]
    exact mul_le_mul_of_nonneg_left hh12 (by positivity)
  · intro t1 t2 h ha hab hb hh
    unfold compute_absolute_humidity
    apply round2_mono
    have hT1 : (0 : ℝ) < t1 + 273.15 := by linarith
    have hT2 : (0 : ℝ) < t2 + 273.15 := by linarith
    rw [div_le_div_iff hT1 hT2]
    have hstep := abs_humidity_exp_step ha hab hb
    nlinarith [mul_le_mul_of_nonneg_left hstep (show (0 : ℝ) ≤ 6.112 * 2.1674 * h by positivity)]

/-- Witness for C7 at concrete inputs (20 °C, 30 % → 50 %; 10 °C → 20 °C at 50 %). -/
theorem absolute_humidity_monotone_witness :
    ((-100 : ℝ) ≤ 20 ∧ (20 : ℝ) ≤ 100 ∧ (0 : ℝ) ≤ 30 ∧ (30 : ℝ) ≤ 50 ∧
        compute_absolute_humidity 20 30 ≤ compute_absolute_humidity 20 50) ∧
      ((-100 : ℝ) ≤ 10 ∧ (10 : ℝ) ≤ 20 ∧ (20 : ℝ) ≤ 100 ∧ (0 : ℝ) ≤ 50 ∧
        compute_absolute_humidity 10 50 ≤ compute_absolute_humidity 20 50) :=
  ⟨⟨(by norm_num), (by norm_num), (by norm_num), (by norm_num),
      absolute_humidity_monotone.1 20 30 50 (by norm_num) (by norm_num) (by norm_num)
        (by norm_num)⟩,
   ⟨(by norm_num), (by norm_num), (by norm_num), (by norm_num),
      absolute_humidity_monotone.2 10 20 50 (by norm_num) (by norm_num) (by norm_num)
        (by norm_num)⟩⟩

/-! ### Rational bounds on the logarithms and powers appearing in `dp_sum 25`

Each bound reduces to a finite Taylor expansion of `exp` with explicit error
term (`Real.exp_bound'` from above, `Real.sum_le_exp_of_nonneg` from below)
checked by exact rational arithmetic. -/

lemma log_54_lb : (0.2231430 : ℝ) ≤ Real.log (5 / 4) := by
  rw [Real.le_log_iff_exp_le (by norm_num)]
  refine le_trans (Real.exp_bound' (by norm_num) (by norm_num) (n := 8) (by norm_num)) ?_
  norm_num [Finset.sum_range_succ, Nat.factorial]

lemma log_54_ub : Real.log (5 / 4) ≤ 0.2231440 := by
  rw [Real.log_le_iff_le_exp (by norm_num)]
  refine le_trans ?_ (Real.sum_le_exp_of_nonneg (by norm_num) 8)
  norm_num [Finset.sum_range_succ, Nat.factorial]

lemma log_ten_lb : (2.3025845 : ℝ) ≤ Real.log 10 := by
  rw [show (10 : ℝ) = 2 ^ (3 : ℕ) * (5 / 4) by norm_num,
    Real.log_mul (by norm_num) (by norm_num), Real.log_pow]
  have h2 := Real.log_two_gt_d9
  have h54 := log_54_lb
  push_cast
  linarith

lemma log_ten_ub : Real.log 10 ≤ 2.3025856 := by
  rw [show (10 : ℝ) = 2 ^ (3 : ℕ) * (5 / 4) by norm_num,
    Real.log_mul (by norm_num) (by norm_num), Real.log_pow]
  have h2 := Real.log_two_lt_d9
  have h54 := log_54_ub
  push_cast
  linarith

lemma log_ten_pos : (0 : ℝ) < Real.log 10 := Real.log_pos (by norm_num)

lemma log_a0_lb : (0.224380 : ℝ) ≤ Real.log ((7463 : ℝ) / 5963) := by
  rw [Real.le_log_iff_exp_le (by norm_num)]
  refine le_trans (Real.exp_bound' (by norm_num) (by norm_num) (n := 8) (by norm_num)) ?_
  norm_num [Finset.sum_range_succ, Nat.factorial]

lemma log_a0_ub : Real.log ((7463 : ℝ) / 5963) ≤ 0.224388 := by
  rw [Real.log_le_iff_le_exp (by norm_num)]
  refine le_trans ?_ (Real.sum_le_exp_of_nonneg (by norm_num) 8)
  norm_num [Finset.sum_range_succ, Nat.factorial]

lemma log_1013_lb : (0.0131580 : ℝ) ≤ Real.log 1.013246 := by
  rw [Real.le_log_iff_exp_le (by norm_num)]
  refine le_trans (Real.exp_bound' (by norm_num) (by norm_num) (n := 8) (by norm_num)) ?_
  norm_num [Finset.sum_range_succ, Nat.factorial]

lemma log_1013_ub : Real.log 1.013246 ≤ 0.0131600 := by
  rw [Real.log_le_iff_le_exp (by norm_num)]
  refine le_trans ?_ (Real.sum_le_exp_of_nonneg (by norm_num) 8)
  norm_num [Finset.sum_range_succ, Nat.factorial]

lemma log_061_ub : Real.log 0.61078 ≤ -0.49301 := by
  rw [Real.log_le_iff_le_exp (by norm_num)]
  have h : Real.exp 0.49301 ≤ 100000 / 61078 := by
    refine le_trans (Real.exp_bound' (by norm_num) (by norm_num) (n := 8) (by norm_num)) ?_
    norm_num [Finset.sum_range_succ, Nat.factorial]
  rw [Real.exp_neg]
  calc (0.61078 : ℝ) = ((100000 : ℝ) / 61078)⁻¹ := by norm_num
    _ ≤ (Real.exp 0.49301)⁻¹ := inv_le_inv_of_le (Real.exp_pos _) h

lemma log_061_lb : (-0.49303 : ℝ) ≤ Real.log 0.61078 := by
  rw [Real.le_log_iff_exp_le (by norm_num)]
  have h : (100000 : ℝ) / 61078 ≤ Real.exp 0.49303 := by
    refine le_trans ?_ (Real.sum_le_exp_of_nonneg (by norm_num) 8)
    norm_num [Finset.sum_range_succ, Nat.factorial]
  rw [Real.exp_neg]
  calc (Real.exp 0.49303)⁻¹ ≤ ((100000 : ℝ) / 61078)⁻¹ := inv_le_inv_of_le (by norm_num) h
    _ = 0.61078 := by norm_num

lemma log_2019_lb : (0.051290 : ℝ) ≤ Real.log ((20 : ℝ) / 19) := by
  rw [Real.le_log_iff_exp_le (by norm_num)]
  refine le_trans (Real.exp_bound' (by norm_num) (by norm_num) (n := 8) (by norm_num)) ?_
  norm_num [Finset.sum_range_succ, Nat.factorial]

lemma log_95_ub : Real.log 95 ≤ 4.55389 := by
  rw [show (95 : ℝ) = 10 ^ (2 : ℕ) * ((20 : ℝ) / 19)⁻¹ by norm_num,
    Real.log_mul (by norm_num) (by norm_num), Real.log_pow, Real.log_inv]
  have h10 := log_ten_ub
  have h20 := log_2019_lb
  push_cast
  linarith

lemma rpow_X_ub : (10 : ℝ) ^ ((17016 : ℝ) / 7463) ≤ 192 := by
  rw [Real.rpow_def_of_pos (by norm_num)]
  have h16 : Real.log 10 * ((17016 : ℝ) / 7463) ≤ ((4 : ℕ) : ℝ) * 1.3125016 := by
    push_cast
    nlinarith [log_ten_ub]
  refine le_trans (Real.exp_le_exp.mpr h16) ?_
  rw [Real.exp_nat_mul]
  have hr : Real.exp 1.3125016 ≤ 2.7182818286 * 1.366841 := by
    rw [show (1.3125016 : ℝ) = 1 + 0.3125016 by norm_num, Real.exp_add]
    have h1 : Real.exp 0.3125016 ≤ 1.366841 := by
      refine le_trans (Real.exp_bound' (by norm_num) (by norm_num) (n := 8) (by norm_num)) ?_
      norm_num [Finset.sum_range_succ, Nat.factorial]
    exact mul_le_mul Real.exp_one_lt_d9.le h1 (Real.exp_pos _).le (by norm_num)
  refine le_trans (pow_le_pow_left (Real.exp_pos _).le hr 4) ?_
  norm_num

lemma rpow_X_lb : (1 : ℝ) ≤ (10 : ℝ) ^ ((17016 : ℝ) / 7463) := by
  rw [Real.rpow_def_of_pos (by norm_num)]
  exact Real.one_le_exp (mul_nonneg log_ten_pos.le (by norm_num))

lemma rpow_Y_lb : (1 : ℝ) / 7.56 ≤ (10 : ℝ) ^ (-(5237235 : ℝ) / 5963000) := by
  rw [Real.rpow_def_of_pos (by norm_num)]
  have h1 : Real.log 10 * (-(5237235 : ℝ) / 5963000)
      ≥ 2.3025856 * (-(5237235 : ℝ) / 5963000) := by
    nlinarith [log_ten_ub]
  refine le_trans ?_ (Real.exp_le_exp.mpr h1)
  rw [show (2.3025856 * (-(5237235 : ℝ) / 5963000))
      = -(2.3025856 * ((5237235 : ℝ) / 5963000)) by ring, Real.exp_neg]
  have hq : Real.exp (2.3025856 * ((5237235 : ℝ) / 5963000)) ≤ 7.56 := by
    have hq1 : (2.3025856 * ((5237235 : ℝ) / 5963000)) ≤ 2.0223350 := by norm_num
    refine le_trans (Real.exp_le_exp.mpr hq1) ?_
    rw [show (2.0223350 : ℝ) = 1 + (1 + 0.0223350) by norm_num, Real.exp_add, Real.exp_add]
    have h2 : Real.exp 0.0223350 ≤ 1.022587 := by
      refine le_trans (Real.exp_bound' (by norm_num) (by norm_num) (n := 8) (by norm_num)) ?_
      norm_num [Finset.sum_range_succ, Nat.factorial]
    have h3 : Real.exp 1 * Real.exp 0.0223350 ≤ 2.7182818286 * 1.022587 :=
      mul_le_mul Real.exp_one_lt_d9.le h2 (Real.exp_pos _).le (by norm_num)
    calc Real.exp 1 * (Real.exp 1 * Real.exp 0.0223350)
        ≤ 2.7182818286 * (2.7182818286 * 1.022587) := by
          refine mul_le_mul Real.exp_one_lt_d9.le h3 (by positivity) (by norm_num)
      _ ≤ 7.56 := by norm_num
  calc (1 : ℝ) / 7.56 = (7.56 : ℝ)⁻¹ := by norm_num
    _ ≤ (Real.exp (2.3025856 * ((5237235 : ℝ) / 5963000)))⁻¹ :=
        inv_le_inv_of_le (Real.exp_pos _) hq

lemma rpow_Y_ub : (10 : ℝ) ^ (-(5237235 : ℝ) / 5963000) ≤ 1 := by
  rw [Real.rpow_def_of_pos (by norm_num)]
  refine Real.exp_le_one_iff.mpr ?_
  have := log_ten_pos
  nlinarith

/-! ### Bounds on `dp_sum 25` and the dew point at 25 °C -/

lemma dp_a0_25 : dp_a0 25 = 7463 / 5963 := by
  unfold dp_a0
  norm_num

lemma dp_sum_25_eq : dp_sum 25 =
    -7.90298 * ((7463 : ℝ) / 5963 - 1)
      + 5.02808 * (Real.log ((7463 : ℝ) / 5963) / Real.log 10)
      + -1.3816e-7 * ((10 : ℝ) ^ ((17016 : ℝ) / 7463) - 1)
      + 8.1328e-3 * ((10 : ℝ) ^ (-(5237235 : ℝ) / 5963000) - 1)
      + (3 * Real.log 10 + Real.log 1.013246) / Real.log 10 := by
  unfold dp_sum
  rw [dp_a0_25, ← Real.log_div_log, ← Real.log_div_log,
    show (11.344 : ℝ) * (1 - 1 / ((7463 : ℝ) / 5963)) = (17016 : ℝ) / 7463 by norm_num,
    show (-3.49149 : ℝ) * ((7463 : ℝ) / 5963 - 1) = -(5237235 : ℝ) / 5963000 by norm_num,
    show (1013.246 : ℝ) = 10 ^ (3 : ℕ) * 1.013246 by norm_num,
    Real.log_mul (by norm_num) (by norm_num), Real.log_pow]
  push_cast
  ring

lemma dp_sum_25_lb : (1.5004 : ℝ) ≤ dp_sum 25 := by
  rw [dp_sum_25_eq]
  have hdiv1 : (0.224380 : ℝ) / 2.3025856 ≤ Real.log ((7463 : ℝ) / 5963) / Real.log 10 :=
    div_le_div (by linarith [log_a0_lb]) log_a0_lb log_ten_pos log_ten_ub
  have hdiv2 : (0.0131580 : ℝ) / 2.3025856 ≤ Real.log 1.013246 / Real.log 10 :=
    div_le_div (by linarith [log_1013_lb]) log_1013_lb log_ten_pos log_ten_ub
  have hsplit : (3 * Real.log 10 + Real.log 1.013246) / Real.log 10
      = 3 + Real.log 1.013246 / Real.log 10 := by
    field_simp
  rw [hsplit]
  have hX := rpow_X_ub
  have hY := rpow_Y_lb
  linarith

lemma dp_sum_25_ub : dp_sum 25 ≤ 1.51 := by
  rw [dp_sum_25_eq]
  have hdiv1 : Real.log ((7463 : ℝ) / 5963) / Real.log 10 ≤ (0.224388 : ℝ) / 2.3025845 :=
    div_le_div (by norm_num) log_a0_ub (by norm_num) log_ten_lb
  have hdiv2 : Real.log 1.013246 / Real.log 10 ≤ (0.0131600 : ℝ) / 2.3025845 :=
    div_le_div (by norm_num) log_1013_ub (by norm_num) log_ten_lb
  have hsplit : (3 * Real.log 10 + Real.log 1.013246) / Real.log 10
      = 3 + Real.log 1.013246 / Real.log 10 := by
    field_simp
  rw [hsplit]
  have hX := rpow_X_lb
  have hY := rpow_Y_ub
  linarith

lemma dp_vp_25_pos {h : ℝ} (hh : 0 < h) : 0 < dp_vp 25 h := by
  unfold dp_vp
  exact mul_pos (Real.rpow_pos_of_pos (by norm_num) _) hh

lemma dp_td0_25_eq (h : ℝ) (hh : 0 < h) :
    dp_td0 25 h = (dp_sum 25 - 3) * Real.log 10 + Real.log h - Real.log 0.61078 := by
  unfold dp_td0 dp_vp
  rw [Real.log_div (by positivity) (by norm_num),
    Real.log_mul (ne_of_gt (Real.rpow_pos_of_pos (by norm_num) _)) (ne_of_gt hh),
    Real.log_rpow (by norm_num)]

lemma dp_td0_25_100_lb : (1.64506 : ℝ) ≤ dp_td0 25 100 := by
  rw [dp_td0_25_eq 100 (by norm_num)]
  have hlog100 : Real.log 100 = 2 * Real.log 10 := by
    rw [show (100 : ℝ) = 10 ^ (2 : ℕ) by norm_num, Real.log_pow]
    push_cast
    ring
  rw [hlog100]
  have hmul : (0.5004 : ℝ) * 2.3025845 ≤ (dp_sum 25 - 1) * Real.log 10 := by
    have h1 : (0.5004 : ℝ) ≤ dp_sum 25 - 1 := by linarith [dp_sum_25_lb]
    exact mul_le_mul h1 log_ten_lb (by norm_num) (by linarith [h1])
  have h061 := log_061_ub
  nlinarith [hmul]

lemma dp_td0_25_100_ub : dp_td0 25 100 ≤ 1.67 := by
  rw [dp_td0_25_eq 100 (by norm_num)]
  have hlog100 : Real.log 100 = 2 * Real.log 10 := by
    rw [show (100 : ℝ) = 10 ^ (2 : ℕ) by norm_num, Real.log_pow]
    push_cast
    ring
  rw [hlog100]
  have hmul : (dp_sum 25 - 1) * Real.log 10 ≤ (0.51 : ℝ) * 2.3025856 := by
    have h1 : dp_sum 25 - 1 ≤ (0.51 : ℝ) := by linarith [dp_sum_25_ub]
    exact mul_le_mul h1 log_ten_ub log_ten_pos.le (by norm_num)
  have h061 := log_061_lb
  nlinarith [hmul]

/-! ### C6: the dew point can exceed the temperature at saturation -/

/-- C6 counterexample: at 25 °C and 100 % humidity — inside the formula's
valid domain — `compute_dew_point` returns a value strictly greater than the
temperature, even after the rounding to two decimals (the result is ≥ 25.01,
the true value being ≈ 25.02). -/
theorem dew_point_exceeds_temp_at_saturation :
    (25 : ℝ) < (compute_dew_point 25 100).getD 25 := by
  have h1 := dp_td0_25_100_lb
  have h2 := dp_td0_25_100_ub
  have hvp : ¬ dp_vp 25 100 ≤ 0 := not_le.mpr (dp_vp_25_pos (by norm_num))
  have hden : (0 : ℝ) < 17.558 - dp_td0 25 100 := by linarith
  unfold compute_dew_point
  rw [if_neg (by norm_num), if_neg hvp, if_neg (by intro hc; rw [hc] at hden; exact lt_irrefl 0 hden),
    Option.getD_some]
  have hfrac : (25.005 : ℝ) ≤ 241.88 * dp_td0 25 100 / (17.558 - dp_td0 25 100) := by
    rw [le_div_iff hden]
    nlinarith [h1]
  have hr := le_round2_of_le 2501 hfrac (by norm_num)
  have : ((2501 : ℤ) : ℝ) / 100 = 25.01 := by norm_num
  linarith [hr, this.ge]

/-! ### The dew point stays below the temperature away from saturation

Uniform bounds in the temperature: the two small correction terms of
`dp_sum` are nonpositive on the typical range, `log 373.15` has a rational
upper bound, and `log (273.15 + t)` is bounded from below by the tangent
inequality `log T ≥ log T₀ + 1 - T₀/T` anchored at 268 K and at 298 K. -/

lemma round2_le_add (x : ℝ) : round2 x ≤ x + 1 / 200 := by
  unfold round2
  have h := abs_sub_round (x * 100)
  rw [abs_le] at h
  linarith [h.1]

lemma log_tangent_lb (T T0 : ℝ) (hT : 0 < T) (hT0 : 0 < T0) :
    Real.log T0 + (1 - T0 / T) ≤ Real.log T := by
  have h := Real.one_sub_inv_le_log_of_pos (x := T / T0) (by positivity)
  rw [Real.log_div (ne_of_gt hT) (ne_of_gt hT0), inv_div] at h
  linarith

lemma log_373_ub : Real.log 373.15 ≤ 5.92208 := by
  rw [show (373.15 : ℝ) = 10 ^ (2 : ℕ) * 3.7315 by norm_num,
    Real.log_mul (by norm_num) (by norm_num), Real.log_pow]
  have h1 : Real.log 3.7315 ≤ 1.31690 := by
    rw [Real.log_le_iff_le_exp (by norm_num)]
    have h2 : (1.37286 : ℝ) ≤ Real.exp 0.31690 := by
      refine le_trans ?_ (Real.sum_le_exp_of_nonneg (by norm_num) 8)
      norm_num [Finset.sum_range_succ, Nat.factorial]
    rw [show (1.31690 : ℝ) = 1 + 0.31690 by norm_num, Real.exp_add]
    calc (3.7315 : ℝ) ≤ 2.7182818283 * 1.37286 := by norm_num
      _ ≤ Real.exp 1 * Real.exp 0.31690 :=
          mul_le_mul Real.exp_one_gt_d9.le h2 (by norm_num) (Real.exp_pos 1).le
  have h10 := log_ten_ub
  push_cast
  linarith

lemma log_268_lb : (5.5909824 : ℝ) ≤ Real.log 268 := by
  rw [show (268 : ℝ) = 2 ^ (8 : ℕ) * (67 / 64) by norm_num,
    Real.log_mul (by norm_num) (by norm_num), Real.log_pow]
  have h1 : (0.045805 : ℝ) ≤ Real.log ((67 : ℝ) / 64) := by
    rw [Real.le_log_iff_exp_le (by norm_num)]
    refine le_trans (Real.exp_bound' (by norm_num) (by norm_num) (n := 8) (by norm_num)) ?_
    norm_num [Finset.sum_range_succ, Nat.factorial]
  have h2 := Real.log_two_gt_d9
  push_cast
  linarith

lemma log_298_lb : (5.6970874 : ℝ) ≤ Real.log 298 := by
  rw [show (298 : ℝ) = 2 ^ (8 : ℕ) * (149 / 128) by norm_num,
    Real.log_mul (by norm_num) (by norm_num), Real.log_pow]
  have h1 : (0.151910 : ℝ) ≤ Real.log ((149 : ℝ) / 128) := by
    rw [Real.le_log_iff_exp_le (by norm_num)]
    refine le_trans (Real.exp_bound' (by norm_num) (by norm_num) (n := 8) (by norm_num)) ?_
    norm_num [Finset.sum_range_succ, Nat.factorial]
  have h2 := Real.log_two_gt_d9
  push_cast
  linarith

lemma dp_vp_pos {t h : ℝ} (hh : 0 < h) : 0 < dp_vp t h := by
  unfold dp_vp
  exact mul_pos (Real.rpow_pos_of_pos (by norm_num) _) hh

lemma dp_td0_eq (t h : ℝ) (hh : 0 < h) :
    dp_td0 t h = (dp_sum t - 3) * Real.log 10 + Real.log h - Real.log 0.61078 := by
  unfold dp_td0 dp_vp
  rw [Real.log_div (by positivity) (by norm_num),
    Real.log_mul (ne_of_gt (Real.rpow_pos_of_pos (by norm_num) _)) (ne_of_gt hh),
    Real.log_rpow (by norm_num)]

set_option maxHeartbeats 1600000 in
/-- Uniform upper bound on `td` for `-20 ≤ t ≤ 40` and `0 < h ≤ 95`, with the
logarithm of the absolute temperature kept symbolic. -/
lemma dp_td0_ub_95 (t h : ℝ) (ht1 : -20 ≤ t) (ht2 : t ≤ 40) (hh0 : 0 < h)
    (hh95 : h ≤ 95) :
    dp_td0 t h ≤ -18.19727 * ((373.15 - (273.15 + t)) / (273.15 + t))
      + 5.02808 * (5.92208 - Real.log (273.15 + t)) + 5.06008 := by
  have hT : (0 : ℝ) < 273.15 + t := by linarith
  have hl10 : Real.log 10 ≠ 0 := ne_of_gt log_ten_pos
  have ha0_ge1 : 1 ≤ dp_a0 t := by
    unfold dp_a0
    rw [le_div_iff hT]
    linarith
  have ha0_pos : (0 : ℝ) < dp_a0 t := lt_of_lt_of_le one_pos ha0_ge1
  have ha0sub : dp_a0 t - 1 = (373.15 - (273.15 + t)) / (273.15 + t) := by
    unfold dp_a0
    field_simp
  have hX1 : (1 : ℝ) ≤ (10 : ℝ) ^ (11.344 * (1 - 1 / dp_a0 t)) := by
    rw [Real.rpow_def_of_pos (by norm_num)]
    refine Real.one_le_exp (mul_nonneg log_ten_pos.le (mul_nonneg (by norm_num) ?_))
    have h1 : 1 / dp_a0 t ≤ 1 := by
      rw [div_le_one ha0_pos]
      exact ha0_ge1
    linarith
  have hY1 : (10 : ℝ) ^ (-3.49149 * (dp_a0 t - 1)) ≤ 1 := by
    rw [Real.rpow_def_of_pos (by norm_num)]
    refine Real.exp_le_one_iff.mpr ?_
    nlinarith [log_ten_pos, ha0_ge1]
  have hsum : dp_sum t = (-7.90298 * (dp_a0 t - 1)
      + -1.3816e-7 * ((10 : ℝ) ^ (11.344 * (1 - 1 / dp_a0 t)) - 1)
      + 8.1328e-3 * ((10 : ℝ) ^ (-3.49149 * (dp_a0 t - 1)) - 1))
      + (5.02808 * Real.log (dp_a0 t) + Real.log 1013.246) / Real.log 10 := by
    unfold dp_sum
    rw [← Real.log_div_log, ← Real.log_div_log]
    ring
  have hmul : (dp_sum t - 3) * Real.log 10
      = -7.90298 * (dp_a0 t - 1) * Real.log 10
        + -1.3816e-7 * ((10 : ℝ) ^ (11.344 * (1 - 1 / dp_a0 t)) - 1) * Real.log 10
        + 8.1328e-3 * ((10 : ℝ) ^ (-3.49149 * (dp_a0 t - 1)) - 1) * Real.log 10
        - 3 * Real.log 10
        + 5.02808 * Real.log (dp_a0 t) + Real.log 1013.246 := by
    rw [hsum]
    field_simp
    ring
  have hloga0 : Real.log (dp_a0 t) = Real.log 373.15 - Real.log (273.15 + t) := by
    unfold dp_a0
    rw [Real.log_div (by norm_num) (ne_of_gt hT)]
  have hlog1013 : Real.log 1013.246 = 3 * Real.log 10 + Real.log 1.013246 := by
    rw [show (1013.246 : ℝ) = 10 ^ (3 : ℕ) * 1.013246 by norm_num,
      Real.log_mul (by norm_num) (by norm_num), Real.log_pow]
    push_cast
    ring
  have hterm1 : -7.90298 * (dp_a0 t - 1) * Real.log 10 ≤ -18.19727 * (dp_a0 t - 1) := by
    have hp : (0 : ℝ) ≤ (dp_a0 t - 1) * (7.90298 * Real.log 10 - 18.19727) :=
      mul_nonneg (by linarith) (by linarith [log_ten_lb])
    linarith [hp]
  have hterm3 : -1.3816e-7 * ((10 : ℝ) ^ (11.344 * (1 - 1 / dp_a0 t)) - 1)
      * Real.log 10 ≤ 0 :=
    mul_nonpos_iff.mpr (Or.inr ⟨by linarith [hX1], log_ten_pos.le⟩)
  have hterm4 : 8.1328e-3 * ((10 : ℝ) ^ (-3.49149 * (dp_a0 t - 1)) - 1)
      * Real.log 10 ≤ 0 :=
    mul_nonpos_iff.mpr (Or.inr ⟨by linarith [hY1], log_ten_pos.le⟩)
  have hlogh : Real.log h ≤ Real.log 95 := (Real.log_le_log_iff hh0 (by norm_num)).mpr hh95
  have h95 := log_95_ub
  have h061 := log_061_lb
  have h1013 := log_1013_ub
  have h373 := log_373_ub
  rw [dp_td0_eq t h hh0, hmul, hloga0, hlog1013, ← ha0sub]
  linarith [hterm1, hterm3, hterm4]

set_option maxHeartbeats 1600000 in
/-- C6 amended: `dew_point(temp_c, rh) ≤ temp_c` fails only near saturation
(counterexample at 25 °C, 100 %); with the temperature quantifier intact it
holds away from saturation: for every `-20 ≤ temp_c ≤ 40` and every humidity
`0 < rh ≤ 95`, the computed dew point succeeds and is at most `temp_c`. -/
theorem dew_point_le_temp_below_saturation :
    ∀ t h : ℝ, -20 ≤ t → t ≤ 40 → 0 < h → h ≤ 95 →
      ∃ v, compute_dew_point t h = some v ∧ v ≤ t := by
  intro t h ht1 ht2 hh0 hh95
  have hT : (0 : ℝ) < 273.15 + t := by linarith
  have hden : (0 : ℝ) < 241.875 + t := by linarith
  have hub := dp_td0_ub_95 t h ht1 ht2 hh0 hh95
  have hLub : dp_td0 t h ≤ 17.558 * (t - 0.005) / (241.875 + t) := by
    rcases le_or_lt (273.15 + t) 283.15 with hc | hc
    · have hchord : (6.5909824 : ℝ) - 268 / (273.15 + t) ≤ Real.log (273.15 + t) := by
        have h1 := log_tangent_lb (273.15 + t) 268 hT (by norm_num)
        have h2 := log_268_lb
        linarith
      have hfrac : -18.19727 * ((373.15 - (273.15 + t)) / (273.15 + t))
          + 5.02808 * (5.92208 - ((6.5909824 : ℝ) - 268 / (273.15 + t))) + 5.06008
          = ((18.19727 + 5.02808 * (5.92208 - 6.5909824) + 5.06008) * (273.15 + t)
              + (-18.19727 * 373.15 + 5.02808 * 268)) / (273.15 + t) := by
        field_simp
        ring
      have hkey : -18.19727 * ((373.15 - (273.15 + t)) / (273.15 + t))
          + 5.02808 * (5.92208 - ((6.5909824 : ℝ) - 268 / (273.15 + t))) + 5.06008
          ≤ 17.558 * (t - 0.005) / (241.875 + t) := by
        rw [hfrac, div_le_div_iff hT hden]
        nlinarith [mul_nonneg (show (0 : ℝ) ≤ t + 20 by linarith)
          (show (0 : ℝ) ≤ 10 - t by linarith)]
      have hmono : 5.02808 * (5.92208 - Real.log (273.15 + t))
          ≤ 5.02808 * (5.92208 - ((6.5909824 : ℝ) - 268 / (273.15 + t))) := by
        nlinarith [hchord]
      linarith
    · have hchord : (6.6970874 : ℝ) - 298 / (273.15 + t) ≤ Real.log (273.15 + t) := by
        have h1 := log_tangent_lb (273.15 + t) 298 hT (by norm_num)
        have h2 := log_298_lb
        linarith
      have hfrac : -18.19727 * ((373.15 - (273.15 + t)) / (273.15 + t))
          + 5.02808 * (5.92208 - ((6.6970874 : ℝ) - 298 / (273.15 + t))) + 5.06008
          = ((18.19727 + 5.02808 * (5.92208 - 6.6970874) + 5.06008) * (273.15 + t)
              + (-18.19727 * 373.15 + 5.02808 * 298)) / (273.15 + t) := by
        field_simp
        ring
      have hkey : -18.19727 * ((373.15 - (273.15 + t)) / (273.15 + t))
          + 5.02808 * (5.92208 - ((6.6970874 : ℝ) - 298 / (273.15 + t))) + 5.06008
          ≤ 17.558 * (t - 0.005) / (241.875 + t) := by
        rw [hfrac, div_le_div_iff hT hden]
        nlinarith [mul_nonneg (show (0 : ℝ) ≤ t - 10 by linarith)
          (show (0 : ℝ) ≤ 40 - t by linarith)]
      have hmono : 5.02808 * (5.92208 - Real.log (273.15 + t))
          ≤ 5.02808 * (5.92208 - ((6.6970874 : ℝ) - 298 / (273.15 + t))) := by
        nlinarith [hchord]
      linarith
  have hB3 : 17.558 * (t - 0.005) / (241.875 + t) ≤ 3 := by
    rw [div_le_iff hden]
    linarith
  have hden2 : (0 : ℝ) < 17.558 - dp_td0 t h := by linarith [le_trans hLub hB3]
  have hvp : ¬ dp_vp t h ≤ 0 := not_le.mpr (dp_vp_pos hh0)
  refine ⟨round2 (241.88 * dp_td0 t h / (17.558 - dp_td0 t h)), ?_, ?_⟩
  · unfold compute_dew_point
    rw [if_neg (by linarith), if_neg hvp,
      if_neg (by intro hc0; rw [hc0] at hden2; exact lt_irrefl 0 hden2)]
  · have hprod : dp_td0 t h * (241.875 + t) ≤ 17.558 * (t - 0.005) :=
      (le_div_iff hden).mp hLub
    have hfrac2 : 241.88 * dp_td0 t h / (17.558 - dp_td0 t h) ≤ t - 0.005 := by
      rw [div_le_iff hden2]
      nlinarith [hprod]
    have hr := round2_le_add (241.88 * dp_td0 t h / (17.558 - dp_td0 t h))
    linarith

/-- Witness for the amended C6 at the specification's test point 25 °C, 60 %. -/
theorem dew_point_le_temp_below_saturation_witness :
    (-20 : ℝ) ≤ 25 ∧ (25 : ℝ) ≤ 40 ∧ (0 : ℝ) < 60 ∧ (60 : ℝ) ≤ 95 ∧
      ∃ v, compute_dew_point 25 60 = some v ∧ v ≤ 25 :=
  ⟨(by norm_num), (by norm_num), (by norm_num), (by norm_num),
   dew_point_le_temp_below_saturation 25 60 (by norm_num) (by norm_num) (by norm_num)
     (by norm_num)⟩

end ThermalComfort

end
